import Mathlib

/-!
Shallow embedding of the deletion-detector core of `src/deletion_detector/bot.py`
(Gritzpup/relayer).

The embedded state covers the parts of the system the claims are about:
  * the `message_tracking` table (the ledger rows touched by the deletion handler),
  * the `platform_messages` table (the secondary mapping-id source),
  * the in-memory `app.message_cache` Python dict (modelled as an association
    list in insertion order, matching dict iteration order),
  * a log of webhook POST attempts (one entry per `session.post` call).

Time is in whole seconds (the code compares `total_seconds()` against the
integer thresholds 10 and 3600).  Webhook outcomes and upstream fetch results
are supplied as oracles, since the code's behaviour branches on them.
-/

namespace DeletionDetector

/-- A row of the `message_tracking` table, restricted to the columns
`bot.py` reads or writes: `telegram_msg_id`, `mapping_id`, `platform`,
`is_deleted`, `deleted_at`. -/
structure TrackRow where
  telegram_msg_id : Nat
  mapping_id : Option Nat
  platform : String
  is_deleted : Bool
  deleted_at : Option Nat
  deriving Repr, DecidableEq

/-- A row of the `platform_messages` table (columns used by the handler:
`platform`, `message_id` — stored as a string, the code queries with
`str(msg.id)` — and `mapping_id`). -/
structure PlatformMsgRow where
  platform : String
  message_id : String
  mapping_id : Option Nat
  deriving Repr, DecidableEq

/-- One value of `app.message_cache`: built in `track_message` as
`{'chat_id': ..., 'timestamp': datetime.now(), 'username': ..., 'content': ...}`. -/
structure CacheEntry where
  chat_id : Int
  timestamp : Nat
  username : String
  content : String
  deriving Repr, DecidableEq

/-- One webhook POST attempt: the `webhook_data` payload
`{"telegram_msg_id": msg.id, "mapping_id": mapping_id}`. -/
structure Payload where
  telegram_msg_id : Nat
  mapping_id : Nat
  deriving Repr, DecidableEq

/-- Outcome of one webhook POST (`resp.status == 200`, another HTTP status,
or a raised exception — all caught by the handler). -/
inductive PostResult where
  | ok : PostResult
  | httpErr : Nat → PostResult
  | netErr : PostResult
  deriving Repr, DecidableEq

/-- Outcome of `app.get_messages(chat_id, msg_id)` in the periodic check:
a well-formed message; a `None`/empty/content-less result (treated as
deleted); an exception whose text matches `MESSAGE_ID_INVALID` /
`message not found` (treated as deleted); any other exception. -/
inductive FetchResult where
  | present : FetchResult
  | emptyMsg : FetchResult
  | invalidErr : FetchResult
  | otherErr : FetchResult
  deriving Repr, DecidableEq

/-- The system state the claims quantify over. `sent` records every webhook
POST attempt in order. -/
structure SysState where
  message_tracking : List TrackRow
  platform_messages : List PlatformMsgRow
  cache : List (Nat × CacheEntry)
  sent : List Payload
  deriving Repr, DecidableEq

/-- Python truthiness of a fetched `mapping_id` column value
(`None` and `0` are falsy). -/
def pyTruthy : Option Nat → Bool
  | none => false
  | some v => v != 0

/-- Embeds `SELECT telegram_msg_id, mapping_id, platform FROM message_tracking
WHERE telegram_msg_id = ?` followed by `fetchone()`. -/
def lookupTracking (s : SysState) (mid : Nat) : Option TrackRow :=
  s.message_tracking.find? (fun r => r.telegram_msg_id == mid)

/-- Embeds `SELECT mapping_id FROM platform_messages WHERE platform = 'Telegram'
AND message_id = ?` with `str(msg.id)`, followed by `fetchone()`. -/
def lookupPlatform (s : SysState) (mid : Nat) : Option PlatformMsgRow :=
  s.platform_messages.find? (fun r => r.platform == "Telegram" && r.message_id == toString mid)

/-- Effect of `UPDATE message_tracking SET is_deleted = TRUE,
deleted_at = datetime('now') WHERE telegram_msg_id = ?` on one row. -/
def markRow (now mid : Nat) (r : TrackRow) : TrackRow :=
  if r.telegram_msg_id == mid then { r with is_deleted := true, deleted_at := some now } else r

/-- The `mapping_id` computed at bot.py:192-198:
`if result and result[1]: ... elif mapping_result and mapping_result[0]: ...`. -/
def computedMapping (result : Option TrackRow) (mapping_result : Option PlatformMsgRow) :
    Option Nat :=
  if (match result with
      | some r => pyTruthy r.mapping_id
      | none => false) then
    (result.bind TrackRow.mapping_id)
  else if (match mapping_result with
      | some p => pyTruthy p.mapping_id
      | none => false) then
    (mapping_result.bind PlatformMsgRow.mapping_id)
  else
    none

/-- The body of the `for msg in messages` loop of `handle_deleted_messages`
(bot.py:163-223) for one message id: the two lookups, the unconditional
UPDATE, the mapping precedence, and the single webhook POST whose outcome
(`post`) is only logged. -/
def handleOne (post : Payload → PostResult) (now : Nat) (mid : Nat) (s : SysState) : SysState :=
  let result := lookupTracking s mid
  let mapping_result := lookupPlatform s mid
  let s1 : SysState := { s with message_tracking := s.message_tracking.map (markRow now mid) }
  match computedMapping result mapping_result with
  | some m =>
      let s2 : SysState := { s1 with sent := s1.sent ++ [⟨mid, m⟩] }
      match post ⟨mid, m⟩ with
      | .ok => s2
      | .httpErr _ => s2
      | .netErr => s2
  | none => s1

/-- Embeds `handle_deleted_messages(client, messages, is_periodic)` (bot.py:149-226):
processes each deleted-message id in order; `db.commit()` at the end is
implicit in the pure state. -/
def handle_deleted_messages (post : Payload → PostResult) (now : Nat) (mids : List Nat)
    (s : SysState) : SysState :=
  mids.foldl (fun st mid => handleOne post now mid st) s

/-- Embeds the cache write of `track_message` (bot.py:113-133):
`app.message_cache[message.id] = {...}` —
a Python dict assignment: replaces the value in place when the key exists,
otherwise appends. -/
def dictPut (mid : Nat) (e : CacheEntry) : List (Nat × CacheEntry) → List (Nat × CacheEntry)
  | [] => [(mid, e)]
  | (k, v) :: rest =>
      if k == mid then (k, e) :: rest else (k, v) :: dictPut mid e rest

/-- The cache mutation performed by the `track_message` handler. -/
def track_message (mid : Nat) (e : CacheEntry) (s : SysState) : SysState :=
  { s with cache := dictPut mid e s.cache }

/-- Embeds `del app.message_cache[msg_id]` guarded by
`if msg_id in app.message_cache` (a no-op when the key is absent). -/
def dictDel (mid : Nat) : List (Nat × CacheEntry) → List (Nat × CacheEntry)
  | [] => []
  | (k, v) :: rest => if k == mid then rest else (k, v) :: dictDel mid rest

/-- Cache removal in the periodic check (bot.py:277-278 and 287-288). -/
def removeCache (mid : Nat) (s : SysState) : SysState :=
  { s with cache := dictDel mid s.cache }

/-- The age filter of bot.py:257-260: `msg_age > 10 and msg_age < 3600`
(seconds; `datetime` subtraction embedded with truncated `Nat` subtraction,
which agrees with the float comparison for entries inserted in the past). -/
def dueForCheck (cache : List (Nat × CacheEntry)) (now : Nat) : List (Nat × CacheEntry) :=
  cache.filter (fun p => decide (10 < now - p.2.timestamp) && decide (now - p.2.timestamp < 3600))

/-- One iteration of the periodic check's inner loop (bot.py:265-290):
fetch the message, and on a deleted-looking result or an invalid/not-found
error call `handle_deleted_messages` for that id and then delete the cache
entry; on any other error do nothing (the entry stays cached). -/
def checkOne (post : Payload → PostResult) (fetch : Nat → FetchResult) (now : Nat)
    (st : SysState) (mid : Nat) : SysState :=
  match fetch mid with
  | .present => st
  | .emptyMsg => removeCache mid (handle_deleted_messages post now [mid] st)
  | .invalidErr => removeCache mid (handle_deleted_messages post now [mid] st)
  | .otherErr => st

/-- One tick of `periodic_check` (bot.py:235-295): snapshot the cache ids
whose age is strictly between 10 and 3600 seconds, truncate to 50, and run
the check loop over that snapshot. -/
def periodic_tick (post : Payload → PostResult) (fetch : Nat → FetchResult) (now : Nat)
    (s : SysState) : SysState :=
  let messages_to_check := (dueForCheck s.cache now).map Prod.fst
  let messages := messages_to_check.take 50
  messages.foldl (fun st mid => checkOne post fetch now st mid) s

/-- Number of webhook POST attempts recorded for a given message id. -/
def countSentFor (sent : List Payload) (mid : Nat) : Nat :=
  (sent.filter (fun p => p.telegram_msg_id == mid)).length

/-- Modelled from the spec: `recordSeen(msg)` of §4.1 — the ledger insert is
performed by the external relay process, which is not under `src/`; the spec
says it "inserts-or-ignores a row keyed by platform message id (idempotent)".
New rows start with no mapping, not deleted, no deletion time. -/
def recordSeen (mid : Nat) (s : SysState) : SysState :=
  if s.message_tracking.any (fun r => r.telegram_msg_id == mid) then s
  else { s with message_tracking :=
          s.message_tracking ++ [⟨mid, none, "Telegram", false, none⟩] }

/-- Modelled from the spec: `attachMapping(msgId, mappingId)` of §4.1 — also
performed by the external relay process outside `src/`; the spec says it is
"called by the external relay once mirroring completes; a no-op if already
set". It does not touch the deletion columns. -/
def attachMapping (mid mappingId : Nat) (s : SysState) : SysState :=
  { s with message_tracking := s.message_tracking.map (fun r =>
      if r.telegram_msg_id == mid && r.mapping_id == none then
        { r with mapping_id := some mappingId } else r) }

/-- The operations of the system that touch the ledger or cache, for stating
whole-system invariants: seen-recording, mapping attachment, message
tracking, a live deletion event, one poll tick. -/
inductive Op where
  | seen (mid : Nat)
  | attach (mid mappingId : Nat)
  | put (mid : Nat) (e : CacheEntry)
  | live (post : Payload → PostResult) (now : Nat) (mids : List Nat)
  | poll (post : Payload → PostResult) (fetch : Nat → FetchResult) (now : Nat)

/-- Apply one operation to the state. -/
def Op.apply : Op → SysState → SysState
  | .seen mid, s => recordSeen mid s
  | .attach mid mappingId, s => attachMapping mid mappingId s
  | .put mid e, s => track_message mid e s
  | .live post now mids, s => handle_deleted_messages post now mids s
  | .poll post fetch now, s => periodic_tick post fetch now s

/-- Apply a sequence of operations in order. -/
def runOps (ops : List Op) (s : SysState) : SysState :=
  ops.foldl (fun st op => op.apply st) s

/-- Spec-side description of the mapping lookup (for the refinement claim
about the lookup precedence): use the `message_tracking` row's `mapping_id`
when that row exists and the column is non-null, and only otherwise the
`platform_messages` row's `mapping_id`. -/
def mappingLookupSpec (s : SysState) (mid : Nat) : Option Nat :=
  match lookupTracking s mid with
  | some r =>
      match r.mapping_id with
      | some v => some v
      | none => (lookupPlatform s mid).bind PlatformMsgRow.mapping_id
  | none => (lookupPlatform s mid).bind PlatformMsgRow.mapping_id

/-- A webhook oracle on which every POST succeeds with HTTP 200. -/
def postOK : Payload → PostResult := fun _ => PostResult.ok

/-- A webhook oracle on which every POST fails with HTTP 500
(a non-200 response, i.e. a failed notification attempt). -/
def postFail : Payload → PostResult := fun _ => PostResult.httpErr 500

/-- A fetch oracle on which every `get_messages` raises a transient
(non-invalid) error. -/
def fetchOther : Nat → FetchResult := fun _ => FetchResult.otherErr

/-- A fetch oracle on which every message is fetched intact. -/
def fetchPresent : Nat → FetchResult := fun _ => FetchResult.present

/-- A concrete cache entry inserted at time 0. -/
def e1 : CacheEntry := ⟨-100, 0, "alice", "hi"⟩

/-- A concrete state: one tracked, not-yet-deleted message with id 1 and
mapping id 5, cached at time 0. -/
def s0 : SysState :=
  { message_tracking := [⟨1, some 5, "Telegram", false, none⟩]
    platform_messages := []
    cache := [(1, e1)]
    sent := [] }

/-- A concrete state whose single row is already deleted (deleted at time 100). -/
def s1 : SysState :=
  { message_tracking := [⟨1, some 5, "Telegram", true, some 100⟩]
    platform_messages := []
    cache := []
    sent := [] }

/-- A concrete state holding one cache entry far older than the retention
window at the times considered. -/
def sOld : SysState :=
  { message_tracking := []
    platform_messages := []
    cache := [(7, ⟨-100, 0, "bob", "old"⟩)]
    sent := [] }

/-- A cache of 201 entries (ids 0..200), all inserted at time 0. -/
def bigCache : List (Nat × CacheEntry) :=
  (List.range 201).map (fun i => (i, ⟨0, 0, "u", "c"⟩))

/-- A concrete state whose cache already exceeds the spec's ceiling of 200. -/
def sBig : SysState :=
  { message_tracking := []
    platform_messages := []
    cache := bigCache
    sent := [] }

/-- A concrete state where only the `platform_messages` source carries a
mapping for message 4 (the `message_tracking` row has a null `mapping_id`). -/
def s2 : SysState :=
  { message_tracking := [⟨4, none, "Telegram", false, none⟩]
    platform_messages := [⟨"Telegram", "4", some 9⟩]
    cache := []
    sent := [] }

/-- A concrete operation sequence exercising every kind of operation. -/
def opsW : List Op :=
  [Op.seen 2, Op.attach 1 7, Op.put 3 e1,
   Op.live postOK 10 [1], Op.poll postOK fetchPresent 100]

/-- Positional monotonicity of the deleted flag between two ledger snapshots:
every row that is deleted in the first is still present (same position) and
still deleted in the second. -/
def trackingMono (A B : List TrackRow) : Prop :=
  ∀ i r, A.get? i = some r → r.is_deleted = true →
    ∃ rr, B.get? i = some rr ∧ rr.is_deleted = true

/-! ## Helper lemmas -/

theorem handleOne_cache (post : Payload → PostResult) (now mid : Nat) (s : SysState) :
    (handleOne post now mid s).cache = s.cache := by
  unfold handleOne
  cases hm : computedMapping (lookupTracking s mid) (lookupPlatform s mid) with
  | none => simp [hm]
  | some m =>
      simp only [hm]
      cases post ⟨mid, m⟩ <;> rfl

theorem handle_cache (post : Payload → PostResult) (now : Nat) (mids : List Nat) (s : SysState) :
    (handle_deleted_messages post now mids s).cache = s.cache := by
  induction mids generalizing s with
  | nil => rfl
  | cons m ms ih =>
      show (handle_deleted_messages post now ms (handleOne post now m s)).cache = s.cache
      rw [ih, handleOne_cache]

theorem handleOne_tracking (post : Payload → PostResult) (now mid : Nat) (s : SysState) :
    (handleOne post now mid s).message_tracking = s.message_tracking.map (markRow now mid) := by
  unfold handleOne
  cases hm : computedMapping (lookupTracking s mid) (lookupPlatform s mid) with
  | none => simp [hm]
  | some m =>
      simp only [hm]
      cases post ⟨mid, m⟩ <;> rfl

theorem handleOne_sent (post : Payload → PostResult) (now mid : Nat) (s : SysState) :
    (handleOne post now mid s).sent =
      s.sent ++ (match computedMapping (lookupTracking s mid) (lookupPlatform s mid) with
                 | some m => [⟨mid, m⟩]
                 | none => []) := by
  unfold handleOne
  cases hm : computedMapping (lookupTracking s mid) (lookupPlatform s mid) with
  | none => simp [hm]
  | some m =>
      simp only [hm]
      cases post ⟨mid, m⟩ <;> rfl

theorem countSentFor_append (l l' : List Payload) (mid : Nat) :
    countSentFor (l ++ l') mid = countSentFor l mid + countSentFor l' mid := by
  unfold countSentFor
  rw [List.filter_append, List.length_append]

theorem markRow_telegram_msg_id (now mid : Nat) (r : TrackRow) :
    (markRow now mid r).telegram_msg_id = r.telegram_msg_id := by
  unfold markRow; split <;> rfl

theorem find?_markRow_map (now mid k : Nat) (l : List TrackRow) :
    (l.map (markRow now mid)).find? (fun r => r.telegram_msg_id == k) =
      (l.find? (fun r => r.telegram_msg_id == k)).map (markRow now mid) := by
  induction l with
  | nil => rfl
  | cons r rs ih =>
      simp only [List.map_cons, List.find?, markRow_telegram_msg_id]
      cases hb : (r.telegram_msg_id == k) <;> simp [hb, ih]

theorem lookupTracking_handleOne (post : Payload → PostResult) (now mid : Nat) (s : SysState) :
    lookupTracking (handleOne post now mid s) mid =
      (lookupTracking s mid).map (markRow now mid) := by
  unfold lookupTracking
  rw [handleOne_tracking, find?_markRow_map]

/-! ## Claim C1 -/

/-- C1 counterexample: at the concrete state `s0` (message 1 tracked with a
mapping), two resolver calls carrying the same message id — as live listener
and poll reconciler do when both fire — each POST the deletion webhook, so
the Downstream Notifier is invoked twice for message id 1, refuting the
claimed at-most-once invariant. -/
theorem C1_counterexample :
    ¬ (countSentFor ((handle_deleted_messages postOK 20 [1]
        (handle_deleted_messages postOK 10 [1] s0)).sent) 1 ≤ 1) := by decide

/-- C1 (amended): the webhook is invoked at most once per `resolve()` call
(per occurrence of the id in the processed batches), not at most once per
message id: across any sequence of calls the number of notifications for a
message id grows by at most the number of calls carrying that id, and
(per the counterexample) two calls can each produce one. -/
theorem C1_theorem (post : Payload → PostResult) (now : Nat) (mids : List Nat)
    (s : SysState) (mid : Nat) :
    countSentFor (handle_deleted_messages post now mids s).sent mid ≤
      countSentFor s.sent mid + mids.count mid := by
  induction mids generalizing s with
  | nil => simp [handle_deleted_messages]
  | cons m ms ih =>
      have h1 := ih (handleOne post now m s)
      have h2 : countSentFor (handleOne post now m s).sent mid ≤
          countSentFor s.sent mid + (if mid = m then 1 else 0) := by
        rw [handleOne_sent, countSentFor_append]
        have h3 : countSentFor
            (match computedMapping (lookupTracking s m) (lookupPlatform s m) with
             | some mm => [(⟨m, mm⟩ : Payload)]
             | none => []) mid ≤ (if mid = m then 1 else 0) := by
          cases computedMapping (lookupTracking s m) (lookupPlatform s m) with
          | none => simp [countSentFor]
          | some mm =>
              by_cases hm : mid = m
              · subst hm; simp [countSentFor]
              · have : (m == mid) = false := by
                  simp [Ne.symm hm]
                simp [countSentFor, this, hm]
        omega
      have hc : (m :: ms).count mid = ms.count mid + (if mid = m then 1 else 0) := by
        by_cases hm : mid = m
        · subst hm; simp [List.count_cons]
        · simp [List.count_cons, hm]
      have h4 :
          handle_deleted_messages post now (m :: ms) s =
            handle_deleted_messages post now ms (handleOne post now m s) := rfl
      rw [h4, hc]
      omega

/-! ## Claim C2 -/

/-- C2 counterexample: the deletion UPDATE is not restricted to rows with
`is_deleted = false` — at state `s1`, whose only row is already deleted with
`deleted_at = 100`, a further handler call rewrites the row (resetting
`deleted_at` to the new time 200) and still sends the webhook, so the call
does not detect that it lost the race. -/
theorem C2_counterexample :
    (handleOne postOK 200 1 s1).message_tracking =
        [⟨1, some 5, "Telegram", true, some 200⟩] ∧
    s1.message_tracking = [⟨1, some 5, "Telegram", true, some 100⟩] ∧
    countSentFor (handleOne postOK 200 1 s1).sent 1 = 1 := by decide

/-- C2 (amended): the UPDATE is conditioned only on the message id — there is
no `is_deleted = false` restriction and the affected-row count is never
consulted: a call for an already-deleted row with a truthy mapping rewrites
`deleted_at` to the current time and proceeds to notify exactly as a winning
call would, so both of two racing calls behave as if they performed the
transition. -/
theorem C2_theorem (post : Payload → PostResult) (now mid : Nat) (s : SysState) (r : TrackRow)
    (h : lookupTracking s mid = some r) (hdel : r.is_deleted = true)
    (hm : pyTruthy r.mapping_id = true) :
    (∃ rr, lookupTracking (handleOne post now mid s) mid = some rr ∧
        rr.deleted_at = some now) ∧
    countSentFor (handleOne post now mid s).sent mid = countSentFor s.sent mid + 1 := by
  have hp : (r.telegram_msg_id == mid) = true := by
    have h' : s.message_tracking.find? (fun r => r.telegram_msg_id == mid) = some r := h
    have h2 := List.find?_some h'
    simpa using h2
  constructor
  · rw [lookupTracking_handleOne, h]
    exact ⟨markRow now mid r, rfl, by simp [markRow, hp]⟩
  · rw [handleOne_sent, countSentFor_append]
    cases hmap : r.mapping_id with
    | none => rw [hmap] at hm; simp [pyTruthy] at hm
    | some v =>
        have hcm : computedMapping (lookupTracking s mid) (lookupPlatform s mid) = some v := by
          rw [h]
          unfold computedMapping
          rw [hmap] at hm
          simp [hm, hmap]
        rw [hcm]
        simp [countSentFor]

/-- C2 witness: the amended statement instantiated at the concrete
already-deleted state `s1`. -/
theorem C2_witness :
    (∃ rr, lookupTracking (handleOne postOK 200 1 s1) 1 = some rr ∧
        rr.deleted_at = some 200) ∧
    countSentFor (handleOne postOK 200 1 s1).sent 1 = countSentFor s1.sent 1 + 1 :=
  C2_theorem postOK 200 1 s1 ⟨1, some 5, "Telegram", true, some 100⟩
    (by decide) (by decide) (by decide)

/-! ## Claim C3 -/

/-- C3 counterexample: with a webhook oracle on which every POST fails with
HTTP 500, the handler makes exactly one POST attempt for message 1 at state
`s0` — there is no second attempt, refuting the claimed retry-with-backoff
(which would require at least two attempts after a failure). -/
theorem C3_counterexample :
    countSentFor (handleOne postFail 10 1 s0).sent 1 = 1 ∧
    ¬ (2 ≤ countSentFor (handleOne postFail 10 1 s0).sent 1) := by decide

/-- C3 (amended): the notifier never retries: each handler call makes exactly
one POST attempt when the mapping lookup yields an id and none otherwise,
for every webhook-outcome oracle (failing ones included) — the failure is
only logged and the notification dropped. -/
theorem C3_theorem (post : Payload → PostResult) (now mid : Nat) (s : SysState) :
    countSentFor (handleOne post now mid s).sent mid =
      countSentFor s.sent mid +
        (match computedMapping (lookupTracking s mid) (lookupPlatform s mid) with
         | some _ => 1
         | none => 0) := by
  rw [handleOne_sent, countSentFor_append]
  cases computedMapping (lookupTracking s mid) (lookupPlatform s mid) with
  | none => simp [countSentFor]
  | some mm => simp [countSentFor]

/-! ## Claim C4 -/

/-- C4: for every handler call on a tracked message id, the ledger row ends
with `is_deleted = true` and `deleted_at` set to the current time, for every
webhook-outcome oracle — in particular when the notification fails (non-200
or raised exception): the UPDATE runs before the POST and its effect does
not depend on the POST's outcome. -/
theorem C4_theorem (post : Payload → PostResult) (now mid : Nat) (s : SysState) (r : TrackRow)
    (h : lookupTracking s mid = some r) :
    ∃ rr, lookupTracking (handleOne post now mid s) mid = some rr ∧
      rr.is_deleted = true ∧ rr.deleted_at = some now := by
  have hp : (r.telegram_msg_id == mid) = true := by
    have h' : s.message_tracking.find? (fun r => r.telegram_msg_id == mid) = some r := h
    have h2 := List.find?_some h'
    simpa using h2
  rw [lookupTracking_handleOne, h]
  exact ⟨markRow now mid r, rfl, by simp [markRow, hp], by simp [markRow, hp]⟩

/-- C4 witness: the theorem instantiated at the concrete state `s0` with the
always-failing webhook oracle. -/
theorem C4_witness :
    ∃ rr, lookupTracking (handleOne postFail 50 1 s0) 1 = some rr ∧
      rr.is_deleted = true ∧ rr.deleted_at = some 50 :=
  C4_theorem postFail 50 1 s0 ⟨1, some 5, "Telegram", false, none⟩ (by decide)

/-! ## Claim C5 -/

/-- C5 counterexample: at state `s0`, whose cache holds an entry for message
1, a live-path resolver call for message 1 leaves that cache entry in place
— the claimed first-step cache removal does not happen on the live path. -/
theorem C5_counterexample :
    ((handle_deleted_messages postOK 10 [1] s0).cache.find? (fun p => p.1 == 1)) =
      some (1, e1) := by decide

/-- C5 (amended): the resolver (`handle_deleted_messages`) never touches the
cache, on either path; cache removal happens only in the periodic check,
after the resolver returns, and only when the fetch classified the message
as deleted (absent/empty result or invalid/not-found error). -/
theorem C5_theorem (post : Payload → PostResult) (fetch : Nat → FetchResult) (now : Nat)
    (mids : List Nat) (s : SysState) :
    (handle_deleted_messages post now mids s).cache = s.cache ∧
    ∀ mid, (checkOne post fetch now s mid).cache =
      (match fetch mid with
       | FetchResult.emptyMsg => dictDel mid s.cache
       | FetchResult.invalidErr => dictDel mid s.cache
       | _ => s.cache) := by
  refine ⟨handle_cache post now mids s, fun mid => ?_⟩
  unfold checkOne
  cases fetch mid <;> simp [removeCache, handle_cache]

/-! ## Claim C6 -/

/-- C6 counterexample: the entry of `sOld` was inserted at time 0; at time
4000 — far beyond any retention window — a full periodic tick leaves the
cache unchanged: the entry is not returned but it is never evicted either,
refuting the claimed eviction after the maximum retention window. -/
theorem C6_counterexample :
    (7, (⟨-100, 0, "bob", "old"⟩ : CacheEntry)) ∉ dueForCheck sOld.cache 4000 ∧
    (periodic_tick postOK fetchPresent 4000 sOld).cache = sOld.cache ∧
    sOld.cache = [(7, ⟨-100, 0, "bob", "old"⟩)] := by decide

theorem dictDel_cons_eq (mid : Nat) (pv : CacheEntry) (rest : List (Nat × CacheEntry)) :
    dictDel mid ((mid, pv) :: rest) = rest := by
  simp [dictDel]

theorem dictDel_cons_ne (mid pk : Nat) (pv : CacheEntry) (rest : List (Nat × CacheEntry))
    (h : pk ≠ mid) :
    dictDel mid ((pk, pv) :: rest) = (pk, pv) :: dictDel mid rest := by
  simp [dictDel, h]

theorem mem_dictDel_of_ne {mid k : Nat} {v : CacheEntry} {l : List (Nat × CacheEntry)}
    (hne : k ≠ mid) (h : (k, v) ∈ l) : (k, v) ∈ dictDel mid l := by
  induction l with
  | nil => cases h
  | cons p rest ih =>
      rcases p with ⟨pk, pv⟩
      rcases List.mem_cons.mp h with he | hm
      · injection he with h1 h2
        subst h1; subst h2
        rw [dictDel_cons_ne mid k v rest hne]
        exact List.mem_cons_self _ _
      · by_cases hk : pk = mid
        · subst hk
          rw [dictDel_cons_eq]
          exact hm
        · rw [dictDel_cons_ne _ _ _ _ hk]
          exact List.mem_cons_of_mem _ (ih hm)

theorem cache_foldl_checkOne_mem (post : Payload → PostResult) (fetch : Nat → FetchResult)
    (now : Nat) (batch : List Nat) (s : SysState) (q : Nat × CacheEntry)
    (hq : q ∈ s.cache) (hnot : ∀ m ∈ batch, m ≠ q.1) :
    q ∈ (batch.foldl (fun st mid => checkOne post fetch now st mid) s).cache := by
  induction batch generalizing s with
  | nil => exact hq
  | cons m ms ih =>
      have hstep : q ∈ (checkOne post fetch now s m).cache := by
        have hmq : q.1 ≠ m := Ne.symm (hnot m (List.mem_cons_self _ _))
        unfold checkOne
        cases fetch m with
        | present => exact hq
        | emptyMsg =>
            show q ∈ (removeCache m (handle_deleted_messages post now [m] s)).cache
            simp only [removeCache]
            rw [handle_cache]
            rcases q with ⟨qk, qv⟩
            exact mem_dictDel_of_ne hmq hq
        | invalidErr =>
            show q ∈ (removeCache m (handle_deleted_messages post now [m] s)).cache
            simp only [removeCache]
            rw [handle_cache]
            rcases q with ⟨qk, qv⟩
            exact mem_dictDel_of_ne hmq hq
        | otherErr => exact hq
      exact ih (checkOne post fetch now s m) hstep
        (fun x hx => hnot x (List.mem_cons_of_mem _ hx))

/-- C6 (amended): the minimum-check age is a uniform 10 seconds for every
entry (no per-class thresholds), the upper bound is 3600 seconds, and an
entry past that bound is merely excluded from the snapshot, never evicted:
with distinct cache keys (as in a Python dict) an over-retention entry
survives every periodic tick. -/
theorem C6_theorem (post : Payload → PostResult) (fetch : Nat → FetchResult) (now : Nat)
    (s : SysState) (q : Nat × CacheEntry) (hq : q ∈ s.cache)
    (hnodup : (s.cache.map Prod.fst).Nodup)
    (hout : now - q.2.timestamp ≤ 10 ∨ 3600 ≤ now - q.2.timestamp) :
    q ∉ dueForCheck s.cache now ∧
    (3600 ≤ now - q.2.timestamp → q ∈ (periodic_tick post fetch now s).cache) := by
  have hnotdue : q ∉ dueForCheck s.cache now := by
    intro hmem
    have hp := (List.mem_filter.mp hmem).2
    simp only [Bool.and_eq_true, decide_eq_true_eq] at hp
    omega
  refine ⟨hnotdue, fun hold => ?_⟩
  show q ∈ ((((dueForCheck s.cache now).map Prod.fst).take 50).foldl
      (fun st mid => checkOne post fetch now st mid) s).cache
  apply cache_foldl_checkOne_mem post fetch now _ s q hq
  intro m hm hmq
  have hm2 : m ∈ (dueForCheck s.cache now).map Prod.fst := List.mem_of_mem_take hm
  rcases List.mem_map.mp hm2 with ⟨p, hpdue, hpfst⟩
  have hpcache : p ∈ s.cache := (List.mem_filter.mp hpdue).1
  have hpq : p = q := by
    exact List.inj_on_of_nodup_map hnodup hpcache hq (by rw [hpfst, hmq])
  rw [hpq] at hpdue
  exact hnotdue hpdue

/-- C6 witness: the amended statement at the concrete over-retention state
`sOld` at time 4000. -/
theorem C6_witness :
    ((7, (⟨-100, 0, "bob", "old"⟩ : CacheEntry)) ∉ dueForCheck sOld.cache 4000) ∧
    (3600 ≤ 4000 - ((7, (⟨-100, 0, "bob", "old"⟩ : CacheEntry)) : Nat × CacheEntry).2.timestamp →
      (7, (⟨-100, 0, "bob", "old"⟩ : CacheEntry)) ∈
        (periodic_tick postFail fetchPresent 4000 sOld).cache) :=
  C6_theorem postFail fetchPresent 4000 sOld (7, ⟨-100, 0, "bob", "old"⟩)
    (by decide) (by decide) (by decide)

/-! ## Claim C7 -/

set_option maxRecDepth 8192 in
/-- C7 counterexample: `sBig` holds 201 entries, all inserted at time 0 —
already above the claimed ceiling of 200; inserting a further entry at time
4000 performs no cleanup: the cache grows to 202 and the over-retention
entry with id 0 is still present, refuting the claimed eviction sweep. -/
theorem C7_counterexample :
    (track_message 500 ⟨0, 4000, "u", "c"⟩ sBig).cache.length = 202 ∧
    (0, (⟨0, 0, "u", "c"⟩ : CacheEntry)) ∈ (track_message 500 ⟨0, 4000, "u", "c"⟩ sBig).cache := by
  decide

theorem mem_dictPut_of_ne {mid k : Nat} {v e : CacheEntry} {l : List (Nat × CacheEntry)}
    (hne : k ≠ mid) (h : (k, v) ∈ l) : (k, v) ∈ dictPut mid e l := by
  induction l with
  | nil => cases h
  | cons p rest ih =>
      rcases p with ⟨pk, pv⟩
      by_cases hk : pk = mid
      · subst hk
        have hb : (pk == pk) = true := by simp
        simp only [dictPut, hb, if_true]
        rcases List.mem_cons.mp h with he | hm
        · injection he with h1 _
          exact absurd h1 hne
        · exact List.mem_cons_of_mem _ hm
      · have hb : (pk == mid) = false := by simp [hk]
        simp only [dictPut, hb, Bool.false_eq_true, if_false]
        rcases List.mem_cons.mp h with he | hm
        · rw [he]; exact List.mem_cons_self _ _
        · exact List.mem_cons_of_mem _ (ih hm)

theorem length_le_length_dictPut (mid : Nat) (e : CacheEntry) (l : List (Nat × CacheEntry)) :
    l.length ≤ (dictPut mid e l).length := by
  induction l with
  | nil => simp [dictPut]
  | cons p rest ih =>
      rcases p with ⟨pk, pv⟩
      by_cases hk : pk = mid
      · subst hk
        have hb : (pk == pk) = true := by simp
        simp only [dictPut, hb, if_true, List.length_cons, Nat.le_refl]
      · have hb : (pk == mid) = false := by simp [hk]
        simp only [dictPut, hb, Bool.false_eq_true, if_false, List.length_cons]
        exact Nat.succ_le_succ ih

/-- C7 (amended): an insert performs no capacity check and no cleanup:
`track_message` only adds or replaces the entry for the inserted id; every
other entry survives unchanged whatever the cache size or the entries' ages,
and the cache never shrinks on insert — capacity is unbounded. -/
theorem C7_theorem (mid : Nat) (e : CacheEntry) (s : SysState) (k : Nat) (v : CacheEntry)
    (hne : k ≠ mid) (hmem : (k, v) ∈ s.cache) :
    (k, v) ∈ (track_message mid e s).cache ∧
    s.cache.length ≤ (track_message mid e s).cache.length := by
  constructor
  · show (k, v) ∈ dictPut mid e s.cache
    exact mem_dictPut_of_ne hne hmem
  · exact length_le_length_dictPut mid e s.cache

/-- C7 witness: the amended statement at the concrete 201-entry state. -/
theorem C7_witness :
    (0, (⟨0, 0, "u", "c"⟩ : CacheEntry)) ∈ (track_message 500 ⟨0, 4000, "u", "c"⟩ sBig).cache ∧
    sBig.cache.length ≤ (track_message 500 ⟨0, 4000, "u", "c"⟩ sBig).cache.length :=
  C7_theorem 500 ⟨0, 4000, "u", "c"⟩ sBig 0 ⟨0, 0, "u", "c"⟩ (by decide) (by decide)

/-! ## Claim C8 -/

/-- C8: when the fetch for a cached message fails with the non-invalid
(transient) error class, the periodic-check step is a complete no-op: the
state — cache, ledger and webhook log — is unchanged, so no deletion is
inferred and the resolver is not invoked; and the entry, still cached, is
again in the due-for-check snapshot at any later time within the age
window. -/
theorem C8_theorem (post : Payload → PostResult) (fetch : Nat → FetchResult) (now : Nat)
    (s : SysState) (mid : Nat) (hf : fetch mid = FetchResult.otherErr) :
    checkOne post fetch now s mid = s ∧
    ∀ e t, (mid, e) ∈ s.cache → 10 < t - e.timestamp → t - e.timestamp < 3600 →
      (mid, e) ∈ dueForCheck s.cache t := by
  constructor
  · unfold checkOne
    rw [hf]
  · intro e t hm h1 h2
    refine List.mem_filter.mpr ⟨hm, ?_⟩
    simp only [Bool.and_eq_true, decide_eq_true_eq]
    exact ⟨h1, h2⟩

/-- C8 witness: the theorem at the concrete state `s0` with the
always-transient fetch oracle. -/
theorem C8_witness :
    checkOne postOK fetchOther 100 s0 1 = s0 ∧
    ∀ e t, (1, e) ∈ s0.cache → 10 < t - e.timestamp → t - e.timestamp < 3600 →
      (1, e) ∈ dueForCheck s0.cache t :=
  C8_theorem postOK fetchOther 100 s0 1 (by decide)

/-! ## Claim C9 -/

theorem trackingMono_refl (A : List TrackRow) : trackingMono A A :=
  fun _ r h hd => ⟨r, h, hd⟩

theorem trackingMono_trans {A B C : List TrackRow}
    (h1 : trackingMono A B) (h2 : trackingMono B C) : trackingMono A C := by
  intro i r h hd
  obtain ⟨rr, hB, hdB⟩ := h1 i r h hd
  exact h2 i rr hB hdB

theorem trackingMono_map (f : TrackRow → TrackRow)
    (hf : ∀ r, r.is_deleted = true → (f r).is_deleted = true) (A : List TrackRow) :
    trackingMono A (A.map f) := by
  intro i r h hd
  refine ⟨f r, ?_, hf r hd⟩
  rw [List.get?_map, h]
  rfl

theorem trackingMono_append (A B : List TrackRow) : trackingMono A (A ++ B) := by
  intro i r h hd
  have hlt : i < A.length := by
    by_contra hge
    rw [List.get?_eq_none.mpr (Nat.le_of_not_lt hge)] at h
    cases h
  refine ⟨r, ?_, hd⟩
  rw [List.get?_append hlt]
  exact h

theorem markRow_mono (now mid : Nat) (r : TrackRow) (hd : r.is_deleted = true) :
    (markRow now mid r).is_deleted = true := by
  unfold markRow
  split
  · rfl
  · exact hd

theorem handleOne_mono (post : Payload → PostResult) (now mid : Nat) (s : SysState) :
    trackingMono s.message_tracking (handleOne post now mid s).message_tracking := by
  rw [handleOne_tracking]
  exact trackingMono_map _ (markRow_mono now mid) _

theorem trackingMono_foldl {β : Type} (step : SysState → β → SysState)
    (hstep : ∀ s b, trackingMono s.message_tracking (step s b).message_tracking)
    (l : List β) (s : SysState) :
    trackingMono s.message_tracking (l.foldl step s).message_tracking := by
  induction l generalizing s with
  | nil => exact trackingMono_refl _
  | cons b bs ih => exact trackingMono_trans (hstep s b) (ih (step s b))

theorem handle_mono (post : Payload → PostResult) (now : Nat) (mids : List Nat) (s : SysState) :
    trackingMono s.message_tracking (handle_deleted_messages post now mids s).message_tracking :=
  trackingMono_foldl _ (fun st b => handleOne_mono post now b st) mids s

theorem checkOne_mono (post : Payload → PostResult) (fetch : Nat → FetchResult) (now : Nat)
    (s : SysState) (mid : Nat) :
    trackingMono s.message_tracking (checkOne post fetch now s mid).message_tracking := by
  unfold checkOne
  cases fetch mid with
  | present => exact trackingMono_refl _
  | emptyMsg =>
      show trackingMono _ (removeCache mid (handle_deleted_messages post now [mid] s)).message_tracking
      exact handle_mono post now [mid] s
  | invalidErr =>
      show trackingMono _ (removeCache mid (handle_deleted_messages post now [mid] s)).message_tracking
      exact handle_mono post now [mid] s
  | otherErr => exact trackingMono_refl _

theorem op_mono (op : Op) (s : SysState) :
    trackingMono s.message_tracking (op.apply s).message_tracking := by
  cases op with
  | seen mid =>
      show trackingMono _ (recordSeen mid s).message_tracking
      unfold recordSeen
      split
      · exact trackingMono_refl _
      · exact trackingMono_append _ _
  | attach mid mp =>
      show trackingMono _ (attachMapping mid mp s).message_tracking
      unfold attachMapping
      refine trackingMono_map _ (fun r hd => ?_) _
      split
      · exact hd
      · exact hd
  | put mid e => exact trackingMono_refl _
  | live post now mids => exact handle_mono post now mids s
  | poll post fetch now =>
      show trackingMono _ (periodic_tick post fetch now s).message_tracking
      unfold periodic_tick
      exact trackingMono_foldl _ (fun st b => checkOne_mono post fetch now st b) _ s

/-- C9: once a ledger row has `is_deleted = true`, no operation of the system
— seen-recording, mapping attachment, cache insertion, a live deletion
event, or a poll tick — ever sets it back to `false`: after any operation
sequence the row (at the same position) is still marked deleted.
`recordSeen` and `attachMapping` are modelled from the spec (§4.1), since
the relay process that performs them is not under `src/`; all other
operations are embedded from `bot.py`. -/
theorem C9_theorem (ops : List Op) (s : SysState) (i : Nat) (r : TrackRow)
    (hi : s.message_tracking.get? i = some r) (hdel : r.is_deleted = true) :
    ∃ rr, (runOps ops s).message_tracking.get? i = some rr ∧ rr.is_deleted = true := by
  have hm : trackingMono s.message_tracking (runOps ops s).message_tracking := by
    unfold runOps
    exact trackingMono_foldl _ (fun st op => op_mono op st) ops s
  exact hm i r hi hdel

/-- C9 witness: the theorem at the concrete already-deleted state `s1` under
a sequence containing every kind of operation. -/
theorem C9_witness :
    ∃ rr, (runOps opsW s1).message_tracking.get? 0 = some rr ∧ rr.is_deleted = true :=
  C9_theorem opsW s1 0 ⟨1, some 5, "Telegram", true, some 100⟩ (by decide) (by decide)

/-! ## Claim C10 -/

theorem lookupTracking_mem {s : SysState} {mid : Nat} {r : TrackRow}
    (h : lookupTracking s mid = some r) : r ∈ s.message_tracking := by
  have h' : s.message_tracking.find? (fun q => q.telegram_msg_id == mid) = some r := h
  exact List.mem_of_find?_eq_some h'

theorem lookupPlatform_mem {s : SysState} {mid : Nat} {p : PlatformMsgRow}
    (h : lookupPlatform s mid = some p) : p ∈ s.platform_messages := by
  have h' : s.platform_messages.find?
      (fun q => q.platform == "Telegram" && q.message_id == toString mid) = some p := h
  exact List.mem_of_find?_eq_some h'

theorem computedMapping_eq_spec (s : SysState) (mid : Nat)
    (hnz : ∀ r ∈ s.message_tracking, r.mapping_id ≠ some 0)
    (hnz2 : ∀ p ∈ s.platform_messages, p.mapping_id ≠ some 0) :
    computedMapping (lookupTracking s mid) (lookupPlatform s mid) = mappingLookupSpec s mid := by
  cases ht : lookupTracking s mid with
  | none =>
      cases hp : lookupPlatform s mid with
      | none => simp [computedMapping, mappingLookupSpec, ht, hp]
      | some p =>
          cases hpm : p.mapping_id with
          | none => simp [computedMapping, mappingLookupSpec, ht, hp, hpm, pyTruthy]
          | some v =>
              have hv : v ≠ 0 := fun h0 => hnz2 p (lookupPlatform_mem hp) (by rw [hpm, h0])
              simp [computedMapping, mappingLookupSpec, ht, hp, hpm, pyTruthy, hv]
  | some r =>
      cases hrm : r.mapping_id with
      | some v =>
          have hv : v ≠ 0 := fun h0 => hnz r (lookupTracking_mem ht) (by rw [hrm, h0])
          simp [computedMapping, mappingLookupSpec, ht, hrm, pyTruthy, hv]
      | none =>
          cases hp : lookupPlatform s mid with
          | none => simp [computedMapping, mappingLookupSpec, ht, hp, hrm, pyTruthy]
          | some p =>
              cases hpm : p.mapping_id with
              | none => simp [computedMapping, mappingLookupSpec, ht, hp, hrm, hpm, pyTruthy]
              | some v =>
                  have hv : v ≠ 0 := fun h0 => hnz2 p (lookupPlatform_mem hp) (by rw [hpm, h0])
                  simp [computedMapping, mappingLookupSpec, ht, hp, hrm, hpm, pyTruthy, hv]

/-- C10: provided no stored mapping id is the (never-used) value 0 — so that
SQL NULL/non-NULL coincides with Python truthiness — a handler call appends
exactly one webhook POST, carrying the message id and the looked-up mapping,
when the two-source precedence lookup (`message_tracking.mapping_id` when
non-null, otherwise the `platform_messages` row's `mapping_id`) yields an
id, and appends nothing when both sources are null. -/
theorem C10_theorem (post : Payload → PostResult) (now mid : Nat) (s : SysState)
    (hnz : ∀ r ∈ s.message_tracking, r.mapping_id ≠ some 0)
    (hnz2 : ∀ p ∈ s.platform_messages, p.mapping_id ≠ some 0) :
    (handleOne post now mid s).sent =
      s.sent ++ (match mappingLookupSpec s mid with
                 | some m => [(⟨mid, m⟩ : Payload)]
                 | none => []) := by
  rw [handleOne_sent, computedMapping_eq_spec s mid hnz hnz2]

/-- C10 witness: the theorem at the concrete state `s2`, where only the
`platform_messages` source carries a mapping (the precedence falls through
to the second source and the webhook is sent with that mapping). -/
theorem C10_witness :
    (handleOne postOK 10 4 s2).sent =
      s2.sent ++ (match mappingLookupSpec s2 4 with
                  | some m => [(⟨4, m⟩ : Payload)]
                  | none => []) :=
  C10_theorem postOK 10 4 s2 (by decide) (by decide)

end DeletionDetector
